import Mathlib

/-!
Verification of the data-fetching and view-model mapping layer of the
openmrs/esm-billing-app billing module.

The embedding models:
* the SWR cached-query state consumed by the resource hooks
  (`src/billable-services/billable-service.resource.ts`);
* JavaScript runtime values as `Option`-typed fields (a field declared in the
  TypeScript types may still be absent at runtime; optional chaining `?.`
  short-circuits on an absent value, while a plain member access on an absent
  value throws a `TypeError`, modelled with `Except`);
* the external collaborators (the SWR library, the `openmrsFetch` resource
  client, the bill mapper and the presentational components that are not part
  of the sources) from the contracts in the specification, each marked
  `Modelled from the spec:` in its doc comment.
-/

namespace Billing

/-- State returned by the external SWR cached-query hook for some key, as the
resource hooks consume it: the fetched value `data` (absent before the first
successful fetch or for a disabled key), the `isLoading` / `isValidating`
flags, the `error` (modelled by its message) and the `mutate` callback
(modelled by an opaque token of type `μ`, forwarded without inspection). -/
structure SWRState (α μ : Type) where
  data : Option α
  isLoading : Bool
  isValidating : Bool
  error : Option String
  mutate : μ
  deriving Repr, DecidableEq

/-- Envelope produced by the `openmrsFetch` resource client around the raw
REST body: a record with one field `data`.  At runtime the inner field may be
absent, hence `Option`. -/
structure Envelope (β : Type) where
  data : Option β
  deriving Repr, DecidableEq

/-- The `ResponseObject` shape of the resource file: a list endpoint body
wrapping its items in a `results` array; the field may be absent at runtime. -/
structure ResponseObject (α : Type) where
  results : Option (List α)
  deriving Repr, DecidableEq

/-- Body of the concept endpoint used by `useServiceTypes`: a record with a
`setMembers` array, the field possibly absent at runtime (the source leaves
this response untyped). -/
structure SetMembersObject (α : Type) where
  setMembers : Option (List α)
  deriving Repr, DecidableEq

/-- Record returned by `useBillableServices`: the domain field plus the full
query shape `isLoading`, `isValidating`, `error`, `mutate`. -/
structure BillableServicesReturn (α μ : Type) where
  billableServices : List α
  isLoading : Bool
  isValidating : Bool
  error : Option String
  mutate : μ
  deriving Repr, DecidableEq

/-- Record returned by `useServiceTypes`: only `serviceTypes`, `error` and
`isLoading` (the source returns no `isValidating` and no `mutate`). -/
structure ServiceTypesReturn (α : Type) where
  serviceTypes : List α
  error : Option String
  isLoading : Bool
  deriving Repr, DecidableEq

/-- Record returned by `usePaymentModes`: only `paymentModes`, `error` and
`isLoading` (the source returns no `isValidating` and no `mutate`). -/
structure PaymentModesReturn (α : Type) where
  paymentModes : List α
  error : Option String
  isLoading : Bool
  deriving Repr, DecidableEq

/-- Record returned by `useConceptsSearch`: `searchResults`, `error` and
`isSearching` (the SWR `isLoading` renamed; no `isValidating`, no `mutate`). -/
structure ConceptsSearchReturn (α : Type) where
  searchResults : List α
  error : Option String
  isSearching : Bool
  deriving Repr, DecidableEq

/-- Request URL of `useBillableServices` (source line 10): the billableService
path with the custom projection, written as one literal in the source. -/
def useBillableServicesUrl : String :=
  "/ws/rest/v1/cashier/billableService?v=custom:(uuid,name,shortName,serviceStatus,serviceType:(display),servicePrices:(uuid,name,price))"

/-- Request URL of `useServiceTypes` (source line 24): the fixed concept set
with a `setMembers` projection. -/
def useServiceTypesUrl : String :=
  "/ws/rest/v1/concept/21b8cf43-9f9f-4d02-9f4a-d710ece54261?v=custom:(setMembers:(uuid,display))"

/-- Request URL of `usePaymentModes` (source line 36): the template literal
concatenates the framework constant `restBaseUrl` (an external collaborator,
kept abstract here) directly with the string `cashier/paymentMode`. -/
def usePaymentModesUrl (restBaseUrl : String) : String :=
  restBaseUrl ++ "cashier/paymentMode"

/-- Request URL of `createBillableSerice` (source line 48). -/
def createBillableSericeUrl : String :=
  "/ws/rest/v1/cashier/api/billable-service"

/-- Search URL built by `useConceptsSearch` (source line 59): the term is
interpolated verbatim into the template literal, with no URL-encoding. -/
def conditionsSearchUrl (conceptToLookup : String) : String :=
  "/ws/rest/v1/conceptsearch?q=" ++ conceptToLookup

/-- JavaScript truthiness of a string: only the empty string is falsy. -/
def jsTruthy (s : String) : Bool :=
  !(s = "")

/-- SWR key passed by `useConceptsSearch` (source line 62): the conditional
`conceptToLookup ? conditionsSearchUrl : null`. -/
def useConceptsSearchKey (conceptToLookup : String) : Option String :=
  if jsTruthy conceptToLookup then some (conditionsSearchUrl conceptToLookup) else none

/-- Hook `useBillableServices` (source lines 9-21) as a function of the SWR
state for its fixed key: the expression `data?.data.results ?? []` guards only
the outer SWR value; when the SWR value is present but the inner envelope
field is absent, the access `.results` throws a `TypeError`, modelled as
`Except.error`. -/
def useBillableServices (st : SWRState (Envelope (ResponseObject α)) μ) :
    Except String (BillableServicesReturn α μ) :=
  match st.data with
  | none =>
      Except.ok
        { billableServices := []
          isLoading := st.isLoading
          isValidating := st.isValidating
          error := st.error
          mutate := st.mutate }
  | some env =>
      match env.data with
      | none => Except.error "TypeError: cannot read results of undefined"
      | some body =>
          Except.ok
            { billableServices := body.results.getD []
              isLoading := st.isLoading
              isValidating := st.isValidating
              error := st.error
              mutate := st.mutate }

/-- Hook `useServiceTypes` (source lines 23-33): the expression
`data?.data.setMembers ?? []`, same single-level guard as
`useBillableServices`; the return record carries only `serviceTypes`,
`error` and `isLoading`. -/
def useServiceTypes (st : SWRState (Envelope (SetMembersObject α)) μ) :
    Except String (ServiceTypesReturn α) :=
  match st.data with
  | none =>
      Except.ok { serviceTypes := [], error := st.error, isLoading := st.isLoading }
  | some env =>
      match env.data with
      | none => Except.error "TypeError: cannot read setMembers of undefined"
      | some body =>
          Except.ok
            { serviceTypes := body.setMembers.getD []
              error := st.error
              isLoading := st.isLoading }

/-- Hook `usePaymentModes` (source lines 35-45): the expression
`data?.data.results ?? []`, single-level guard; the return record carries only
`paymentModes`, `error` and `isLoading`. -/
def usePaymentModes (st : SWRState (Envelope (ResponseObject α)) μ) :
    Except String (PaymentModesReturn α) :=
  match st.data with
  | none =>
      Except.ok { paymentModes := [], error := st.error, isLoading := st.isLoading }
  | some env =>
      match env.data with
      | none => Except.error "TypeError: cannot read results of undefined"
      | some body =>
          Except.ok
            { paymentModes := body.results.getD []
              error := st.error
              isLoading := st.isLoading }

/-- Result mapping of `useConceptsSearch` (source lines 66-70) on the SWR
state: the expression `data?.data?.results ?? []` guards both levels with
optional chaining, so no access can throw and the function is total. -/
def useConceptsSearchResult (st : SWRState (Envelope (ResponseObject α)) μ) :
    ConceptsSearchReturn α :=
  { searchResults := ((st.data.bind Envelope.data).bind ResponseObject.results).getD []
    error := st.error
    isSearching := st.isLoading }

/-- Modelled from the spec: the external SWR cached-query hook, section 4.1 of
the spec (the library itself is not part of this repository).  A `none` key
disables the query: no request is issued and the hook returns immediately with
`data` absent and `isLoading` false.  A `some` key joins the cache state of
that key (abstracted as `world`) and issues the request keyed by it.  The
second component collects the request keys issued. -/
def useSWR (key : Option String) (world : String → SWRState α μ) (idleMutate : μ) :
    SWRState α μ × List String :=
  match key with
  | none =>
      ({ data := none
         isLoading := false
         isValidating := false
         error := none
         mutate := idleMutate }, [])
  | some k => (world k, [k])

/-- Hook `useConceptsSearch` (source lines 58-71) end to end: build the key
from the lookup term, query SWR with it, and map the state. -/
def useConceptsSearch (conceptToLookup : String)
    (world : String → SWRState (Envelope (ResponseObject α)) μ) (idleMutate : μ) :
    ConceptsSearchReturn α × List String :=
  let r := useSWR (useConceptsSearchKey conceptToLookup) world idleMutate
  (useConceptsSearchResult r.1, r.2)

/-- HTTP request as the resource client receives it: url, optional method
(GET when absent), optional serialized body, and headers. -/
structure FetchRequest where
  url : String
  method : Option String
  body : Option String
  headers : List (String × String)
  deriving Repr, DecidableEq

/-- Modelled from the spec: the network behind the resource client, abstracted
as a response function; a rejected promise is the `Except.error` case. -/
structure Network (ρ : Type) where
  respond : FetchRequest → Except String ρ

/-- Modelled from the spec: the observable client-side state, a log of the
requests issued so far and the cache entries keyed by request URL. -/
structure ClientState where
  requestLog : List FetchRequest
  cache : List (String × String)
  deriving Repr, DecidableEq

/-- Modelled from the spec: the external resource client `openmrsFetch`
(section 2, Resource Client): it issues the given request over the network,
appends it to the request log, touches no cache entry, and returns the
response of the network unchanged. -/
def openmrsFetch (net : Network ρ) (req : FetchRequest) (s : ClientState) :
    Except String ρ × ClientState :=
  (net.respond req, { s with requestLog := s.requestLog ++ [req] })

/-- Mutation helper `createBillableSerice` (source lines 47-56, with the
spelling of the source): one call to `openmrsFetch` with method POST, the
payload as body and a JSON Content-Type header, whose promise is returned
unchanged. -/
def createBillableSerice (net : Network ρ) (payload : String) (s : ClientState) :
    Except String ρ × ClientState :=
  openmrsFetch net
    { url := createBillableSericeUrl
      method := some "POST"
      body := some payload
      headers := [("Content-Type", "application/json")] } s

/-- Line item of a bill: price, optional quantity and payment status (prices
modelled as integers, as in all the examples of the spec and the tests). -/
structure LineItem where
  uuid : String
  price : Int
  quantity : Option Int
  paymentStatus : String
  deriving Repr, DecidableEq

/-- Modelled from the spec: the derived line total of the bill mapper (the
mapper is exercised only through its tests in the sources): price times
quantity, quantity defaulting to 1 when absent. -/
def lineTotal (li : LineItem) : Int :=
  li.price * li.quantity.getD 1

/-- Modelled from the spec: the default payment selection of the invoice view
(section 4.2): a line item is selected iff its payment status is not PAID. -/
def defaultSelectedLineItems (items : List LineItem) : List LineItem :=
  items.filter (fun li => li.paymentStatus != "PAID")

/-- Modelled from the spec: the unpaid total of a bill, the sum of line totals
over the items whose payment status is not PAID; this is the total the
invoice view displays by default. -/
def unpaidTotal (items : List LineItem) : Int :=
  ((defaultSelectedLineItems items).map lineTotal).sum

/-- Shape returned by the `useBills` collaborator as the bills table consumes
it (as mocked throughout the bills-table tests). -/
structure UseBillsReturn (β : Type) where
  bills : Option (List β)
  isLoading : Bool
  isValidating : Bool
  error : Option String
  deriving Repr, DecidableEq

/-- The mutually exclusive top-level renderings of the bills table; only the
`billsTable` view contains the data table element. -/
inductive BillsTableView
  | loadingSkeleton
  | errorState
  | emptyState
  | billsTable
  deriving Repr, DecidableEq

/-- Modelled from the spec: the bills-table render decision (sections 7 and 8;
the component itself is not among the sources, only its tests): the loading
placeholder while `isLoading`, the error state when `error` is set, the
empty-state message for an empty list, and the data table otherwise. -/
def renderBillsTable (st : UseBillsReturn β) : BillsTableView :=
  if st.isLoading then BillsTableView.loadingSkeleton
  else if st.error.isSome then BillsTableView.errorState
  else if (st.bills.getD []).isEmpty then BillsTableView.emptyState
  else BillsTableView.billsTable

/-- C1: in every SWR state where the fetched value is absent, or the server
returned a body whose `results` array is absent or empty, the hooks
`useBillableServices`, `usePaymentModes` and `useConceptsSearch` return the
empty list for their domain field without throwing; likewise
`useServiceTypes` defaults an absent `setMembers` to the empty list. -/
theorem C1_empty_results_default (α γ μ : Type)
    (st : SWRState (Envelope (ResponseObject α)) μ)
    (h : st.data = none ∨
      ∃ body, st.data = some ⟨some body⟩ ∧ body.results.getD [] = [])
    (st2 : SWRState (Envelope (SetMembersObject γ)) μ)
    (h2 : st2.data = some ⟨some ⟨none⟩⟩) :
    useBillableServices st =
      Except.ok ⟨[], st.isLoading, st.isValidating, st.error, st.mutate⟩ ∧
    usePaymentModes st = Except.ok ⟨[], st.error, st.isLoading⟩ ∧
    useConceptsSearchResult st = ⟨[], st.error, st.isLoading⟩ ∧
    useServiceTypes st2 = Except.ok ⟨[], st2.error, st2.isLoading⟩ := by
  obtain ⟨d, l, v, e, m⟩ := st
  obtain ⟨d2, l2, v2, e2, m2⟩ := st2
  simp only at h h2 ⊢
  subst h2
  rcases h with h | ⟨body, hd, hr⟩
  · subst h
    exact ⟨rfl, rfl, rfl, rfl⟩
  · subst hd
    simp [useBillableServices, usePaymentModes, useConceptsSearchResult,
      useServiceTypes, hr]

/-- C1 witness: the defaults at the loading state (no fetched value) and, for
`useServiceTypes`, at a body with the `setMembers` field absent. -/
theorem C1_empty_results_default_witness :
    useBillableServices (⟨none, true, false, none, ()⟩ :
        SWRState (Envelope (ResponseObject Unit)) Unit) =
      Except.ok ⟨[], true, false, none, ()⟩ ∧
    usePaymentModes (⟨none, true, false, none, ()⟩ :
        SWRState (Envelope (ResponseObject Unit)) Unit) =
      Except.ok ⟨[], none, true⟩ ∧
    useConceptsSearchResult (⟨none, true, false, none, ()⟩ :
        SWRState (Envelope (ResponseObject Unit)) Unit) = ⟨[], none, true⟩ ∧
    useServiceTypes (⟨some ⟨some ⟨none⟩⟩, false, false, none, ()⟩ :
        SWRState (Envelope (SetMembersObject Unit)) Unit) =
      Except.ok ⟨[], none, false⟩ :=
  C1_empty_results_default Unit Unit Unit _ (Or.inl rfl) _ rfl

/-- C2: for the empty (the only falsy) search term, `useConceptsSearch`
passes a null key to the cached query, so no request is issued, and it
returns empty `searchResults` with `isSearching` false; for every non-empty
term it issues exactly the request keyed by the search URL. -/
theorem C2_empty_term_disables_query (α μ : Type)
    (world : String → SWRState (Envelope (ResponseObject α)) μ) (idleMutate : μ)
    (t : String) (ht : t ≠ "") :
    useConceptsSearchKey "" = none ∧
    useConceptsSearch "" world idleMutate = (⟨[], none, false⟩, []) ∧
    (useConceptsSearch t world idleMutate).2 = [conditionsSearchUrl t] := by
  refine ⟨rfl, rfl, ?_⟩
  simp [useConceptsSearch, useConceptsSearchKey, jsTruthy, useSWR, ht]

/-- C2 witness: a cold-cache world, the empty term and the term malaria. -/
theorem C2_empty_term_disables_query_witness :
    useConceptsSearchKey "" = none ∧
    useConceptsSearch ""
      (fun _ => (⟨none, true, false, none, ()⟩ :
        SWRState (Envelope (ResponseObject Unit)) Unit)) () = (⟨[], none, false⟩, []) ∧
    (useConceptsSearch "malaria"
      (fun _ => (⟨none, true, false, none, ()⟩ :
        SWRState (Envelope (ResponseObject Unit)) Unit)) ()).2 =
      [conditionsSearchUrl "malaria"] :=
  C2_empty_term_disables_query Unit Unit _ () "malaria" (by decide)

/-- C9: for every non-empty term the SWR key built by `useConceptsSearch` is
the verbatim concatenation of the conceptsearch prefix with the term, with no
URL-encoding applied. -/
theorem C9_search_key_verbatim (t : String) (ht : t ≠ "") :
    useConceptsSearchKey t = some ("/ws/rest/v1/conceptsearch?q=" ++ t) := by
  simp [useConceptsSearchKey, jsTruthy, conditionsSearchUrl, ht]

/-- C9 witness: a term holding the reserved characters ampersand, equals sign
and space is interpolated verbatim into the key. -/
theorem C9_search_key_verbatim_witness :
    useConceptsSearchKey "a&b=c d" = some "/ws/rest/v1/conceptsearch?q=a&b=c d" :=
  (C9_search_key_verbatim "a&b=c d" (by decide)).trans (by decide)

/-- C10: with the SWR value present but its inner `data` field absent, the
single-level guards of `useBillableServices`, `useServiceTypes` and
`usePaymentModes` throw a TypeError on the unguarded member access, while the
double guard of `useConceptsSearch` still yields the empty list. -/
theorem C10_single_level_guard (α γ μ : Type) (l v : Bool) (e : Option String) (m : μ) :
    useBillableServices (⟨some ⟨none⟩, l, v, e, m⟩ :
        SWRState (Envelope (ResponseObject α)) μ) =
      Except.error "TypeError: cannot read results of undefined" ∧
    useServiceTypes (⟨some ⟨none⟩, l, v, e, m⟩ :
        SWRState (Envelope (SetMembersObject γ)) μ) =
      Except.error "TypeError: cannot read setMembers of undefined" ∧
    usePaymentModes (⟨some ⟨none⟩, l, v, e, m⟩ :
        SWRState (Envelope (ResponseObject α)) μ) =
      Except.error "TypeError: cannot read results of undefined" ∧
    useConceptsSearchResult (⟨some ⟨none⟩, l, v, e, m⟩ :
        SWRState (Envelope (ResponseObject α)) μ) = ⟨[], e, l⟩ :=
  ⟨rfl, rfl, rfl, rfl⟩

/-- C3 counterexample: two SWR states that differ in both `isValidating` and
`mutate` are mapped by `useServiceTypes` to the same return value, so the
return of `useServiceTypes` carries neither the `isValidating` flag nor the
`mutate` function: the claim that every resource hook returns the full query
shape is false on the code. -/
theorem C3_counterexample :
    (⟨none, false, false, none, false⟩ :
        SWRState (Envelope (SetMembersObject Unit)) Bool).isValidating ≠
      (⟨none, false, true, none, true⟩ :
        SWRState (Envelope (SetMembersObject Unit)) Bool).isValidating ∧
    (⟨none, false, false, none, false⟩ :
        SWRState (Envelope (SetMembersObject Unit)) Bool).mutate ≠
      (⟨none, false, true, none, true⟩ :
        SWRState (Envelope (SetMembersObject Unit)) Bool).mutate ∧
    useServiceTypes (⟨none, false, false, none, false⟩ :
        SWRState (Envelope (SetMembersObject Unit)) Bool) =
      useServiceTypes (⟨none, false, true, none, true⟩ :
        SWRState (Envelope (SetMembersObject Unit)) Bool) := by
  refine ⟨by decide, by decide, rfl⟩

/-- C3 amended: `useBillableServices` returns the full query shape
(`isLoading`, `isValidating`, `error`, `mutate`) alongside
`billableServices`; `useServiceTypes` and `usePaymentModes` forward only
`isLoading` and `error` alongside their domain field; `useConceptsSearch`
forwards `error` and renames `isLoading` to `isSearching`. -/
theorem C3_returned_shapes (α γ μ : Type)
    (st : SWRState (Envelope (ResponseObject α)) μ)
    (st2 : SWRState (Envelope (SetMembersObject γ)) μ)
    (r : BillableServicesReturn α μ) (rp : PaymentModesReturn α)
    (rs : ServiceTypesReturn γ)
    (hb : useBillableServices st = Except.ok r)
    (hp : usePaymentModes st = Except.ok rp)
    (hs : useServiceTypes st2 = Except.ok rs) :
    (r.isLoading = st.isLoading ∧ r.isValidating = st.isValidating ∧
      r.error = st.error ∧ r.mutate = st.mutate) ∧
    (rp.isLoading = st.isLoading ∧ rp.error = st.error) ∧
    (rs.isLoading = st2.isLoading ∧ rs.error = st2.error) ∧
    ((useConceptsSearchResult st).isSearching = st.isLoading ∧
      (useConceptsSearchResult st).error = st.error) := by
  obtain ⟨d, l, v, e, m⟩ := st
  obtain ⟨d2, l2, v2, e2, m2⟩ := st2
  rcases d with _ | ⟨_ | body⟩ <;> rcases d2 with _ | ⟨_ | body2⟩ <;>
    simp_all [useBillableServices, usePaymentModes, useServiceTypes,
      useConceptsSearchResult] <;>
    simp_all [← hb, ← hp, ← hs]

/-- C3 amended witness: the forwarding at the loading state. -/
theorem C3_returned_shapes_witness :
    ((⟨[], true, false, some "boom", 7⟩ :
        BillableServicesReturn Unit Nat).isLoading = true ∧
      (⟨[], true, false, some "boom", 7⟩ :
        BillableServicesReturn Unit Nat).isValidating = false ∧
      (⟨[], true, false, some "boom", 7⟩ :
        BillableServicesReturn Unit Nat).error = some "boom" ∧
      (⟨[], true, false, some "boom", 7⟩ :
        BillableServicesReturn Unit Nat).mutate = 7) ∧
    ((⟨[], some "boom", true⟩ : PaymentModesReturn Unit).isLoading = true ∧
      (⟨[], some "boom", true⟩ : PaymentModesReturn Unit).error = some "boom") ∧
    ((⟨[], some "boom", true⟩ : ServiceTypesReturn Unit).isLoading = true ∧
      (⟨[], some "boom", true⟩ : ServiceTypesReturn Unit).error = some "boom") ∧
    ((useConceptsSearchResult (⟨none, true, false, some "boom", 7⟩ :
        SWRState (Envelope (ResponseObject Unit)) Nat)).isSearching = true ∧
      (useConceptsSearchResult (⟨none, true, false, some "boom", 7⟩ :
        SWRState (Envelope (ResponseObject Unit)) Nat)).error = some "boom") :=
  C3_returned_shapes Unit Unit Nat
    ⟨none, true, false, some "boom", 7⟩ ⟨none, true, false, some "boom", 7⟩
    _ _ _ rfl rfl rfl

/-- C4: the mapped line total is price times quantity, quantity defaulting to
1 when absent; a bill whose only line item has price 100, quantity 2 and
payment status PENDING has mapped unpaid total 200. -/
theorem C4_line_total (p q : Int) (u s : String) :
    lineTotal ⟨u, p, some q, s⟩ = p * q ∧
    lineTotal ⟨u, p, none, s⟩ = p ∧
    unpaidTotal [⟨"li1", 100, some 2, "PENDING"⟩] = 200 := by
  refine ⟨rfl, ?_, by decide⟩
  simp [lineTotal]

/-- C5: exactly the line items whose payment status is not PAID are selected
by default in the invoice view, the displayed default total is the sum of the
unpaid line totals, and on the mixed pair of items (100 times 2 pending, 50
times 1 paid) that default total is 200. -/
theorem C5_default_selection (items : List LineItem) (li : LineItem) :
    (li ∈ defaultSelectedLineItems items ↔
      li ∈ items ∧ li.paymentStatus ≠ "PAID") ∧
    unpaidTotal items =
      ((items.filter (fun x => x.paymentStatus != "PAID")).map lineTotal).sum ∧
    unpaidTotal
      [⟨"li1", 100, some 2, "PENDING"⟩, ⟨"li2", 50, some 1, "PAID"⟩] = 200 := by
  refine ⟨?_, rfl, by decide⟩
  simp [defaultSelectedLineItems, List.mem_filter]

/-- C6: `createBillableSerice` issues exactly one request, a POST with a JSON
Content-Type header to the billable-service endpoint, leaves every cache
entry untouched, and returns the client promise for that request unchanged,
so a rejection reaches the caller as is, with no retry. -/
theorem C6_create_billable_service (ρ : Type) (net : Network ρ) (payload : String)
    (s : ClientState) :
    (createBillableSerice net payload s).2.cache = s.cache ∧
    (createBillableSerice net payload s).2.requestLog =
      s.requestLog ++ [⟨createBillableSericeUrl, some "POST", some payload,
        [("Content-Type", "application/json")]⟩] ∧
    (createBillableSerice net payload s).1 =
      net.respond ⟨createBillableSericeUrl, some "POST", some payload,
        [("Content-Type", "application/json")]⟩ :=
  ⟨rfl, rfl, rfl⟩

/-- C7: with `error` set and no data the bills table renders the error state
and not the data table; while `isLoading` it renders the loading placeholder;
the data table renders only in the successful state, with no error and not
loading. -/
theorem C7_render_states (β : Type) (st : UseBillsReturn β) :
    (st.isLoading = true → renderBillsTable st = BillsTableView.loadingSkeleton) ∧
    (st.isLoading = false → st.error.isSome = true → st.bills = none →
      renderBillsTable st = BillsTableView.errorState ∧
      renderBillsTable st ≠ BillsTableView.billsTable) ∧
    (renderBillsTable st = BillsTableView.billsTable →
      st.isLoading = false ∧ st.error = none) := by
  obtain ⟨b, l, v, e⟩ := st
  simp only [renderBillsTable]
  refine ⟨?_, ?_, ?_⟩
  · intro hl
    subst hl
    simp
  · intro hl he hb
    subst hl
    subst hb
    simp [he]
  · intro ht
    rcases l with _ | _ <;> rcases e with _ | msg <;> simp_all

/-- C7 witness: the loading state renders the placeholder and the error state
with no data renders the error view. -/
theorem C7_render_states_witness :
    renderBillsTable (⟨none, true, false, none⟩ : UseBillsReturn Unit) =
      BillsTableView.loadingSkeleton ∧
    renderBillsTable (⟨none, false, false, some "boom"⟩ : UseBillsReturn Unit) =
      BillsTableView.errorState :=
  ⟨(C7_render_states Unit ⟨none, true, false, none⟩).1 rfl,
    ((C7_render_states Unit ⟨none, false, false, some "boom"⟩).2.1 rfl rfl rfl).1⟩

/-- C8: `useBillableServices` requests the billableService path with exactly
the custom projection of the spec, and `usePaymentModes` requests the
concatenation of the REST base URL with cashier/paymentMode. -/
theorem C8_endpoints (restBaseUrl : String) :
    useBillableServicesUrl =
      "/ws/rest/v1/cashier/billableService" ++
        "?v=custom:(uuid,name,shortName,serviceStatus,serviceType:(display),servicePrices:(uuid,name,price))" ∧
    usePaymentModesUrl restBaseUrl = restBaseUrl ++ "cashier/paymentMode" :=
  ⟨rfl, rfl⟩

end Billing
